import Mathlib

/-!
Shallow embedding of the relation-resolution engine of
`src/game/Entities/Relations.cpp` (CMaNGOS classic): faction template
reactions, unit-to-unit reactions, enemy/friend predicates, attack and
assist eligibility, group/team affinity and fog-of-war visibility gates.

Reference tables (faction templates, faction entries), the object accessor
(guid to entity lookup) and the configuration switches are modelled as
read-only fields of a `World` value.  Per-entity mutable state (unit flags,
duel state, reputation, group membership) is modelled as fields of a `Unit`
value, mirroring the collaborator accessors the C++ file calls
(`HasFlag`, `GetUInt32Value`, `GetReputationMgr`, ...).  Pointer equality
of entities is modelled as equality of object guids.
-/

namespace Relations

/-- Reputation rank enumeration (`ReputationRank`), ascending from most
hostile to most friendly, with the same numeric values as the C++ enum. -/
inductive ReputationRank where
  | hostile
  | unfriendly
  | neutral
  | friendly
  | honored
  | revered
  | exalted
deriving DecidableEq, Repr

/-- Numeric value of a reputation rank (the C++ enum value). -/
def ReputationRank.toNat : ReputationRank → Nat
  | .hostile => 0
  | .unfriendly => 1
  | .neutral => 2
  | .friendly => 3
  | .honored => 4
  | .revered => 5
  | .exalted => 6

/-- Rank one step up, modelling the C++ cast `ReputationRank(int32(r) + 1)`.
In the engine it is only applied to ranks strictly below `honored`, so the
clamping at `exalted` is never exercised. -/
def ReputationRank.succ : ReputationRank → ReputationRank
  | .hostile => .unfriendly
  | .unfriendly => .neutral
  | .neutral => .friendly
  | .friendly => .honored
  | .honored => .revered
  | .revered => .exalted
  | .exalted => .exalted

/-- The most friendly rank of the `ReputationRank` ordering. -/
def mostFriendlyRank : ReputationRank := .exalted

/-- Entity kind tag: `TYPEID_PLAYER` or `TYPEID_UNIT` (creature).  Only these
two kinds are inspected by the relation code. -/
inductive TypeId where
  | player
  | creature
deriving DecidableEq, Repr

/-- Model of `FactionTemplateEntry` row: faction id, group masks, explicit enemy and
friend faction lists (fixed-size arrays of four ids in the DBC data) and the
contested-guard-faction predicate. -/
structure FactionTemplateEntry where
  faction : Nat
  factionGroupMask : Nat
  enemyGroupMask : Nat
  friendGroupMask : Nat
  enemyFaction : List Nat
  friendFaction : List Nat
  contestedGuardFaction : Bool
deriving DecidableEq, Repr

/-- Model of `FactionEntry` row: faction id and whether player reputation standing
toward this faction is tracked (`HasReputation`). -/
structure FactionEntry where
  faction : Nat
  hasReputation : Bool
deriving DecidableEq, Repr

/-- Spell metadata consumed by the spell-targeting checks: the two spell
attributes inspected by `Unit::CanAttackSpell`. -/
structure SpellEntry where
  allowDeadTarget : Bool
  ignoreCasterAndTargetRestrictions : Bool
deriving DecidableEq, Repr

/-- A combatant entity (`Unit`, with the `Player` subclass flattened in):
object guid, entity kind, the unit/player flags read by the relation code,
guid links (owner/master/charmer/persuaded/summoner), faction template id,
and the player-only collaborator state (duel fields, reputation manager,
group/team membership, game-master bit).  A guid value `0` models an empty
`ObjectGuid`. -/
structure Unit where
  guid : Nat
  typeId : TypeId
  playerControlled : Bool
  spawning : Bool
  notAttackable1 : Bool
  untargetable : Bool
  taxiFlight : Bool
  uninteractible : Bool
  immuneToPlayer : Bool
  immuneToNpc : Bool
  persuadedFlag : Bool
  pvp : Bool
  pvpFreeForAll : Bool
  alive : Bool
  ownerGuid : Nat
  masterGuid : Nat
  charmerGuid : Nat
  persuadedGuid : Nat
  summonerGuid : Nat
  factionTemplateId : Nat
  creatureVisibleToGhosts : Bool
  ghost : Bool
  contestedPvp : Bool
  duelTeam : Nat
  duelArbiter : Nat
  inDuelWith : Nat → Bool
  forcedRank : Nat → Option ReputationRank
  repRank : Nat → ReputationRank
  atWar : Nat → Bool
  groupId : Nat
  subGroup : Nat
  team : Nat
  gameMaster : Bool

/-- The read-only environment of a query: the object accessor (guid to unit),
the two faction stores and the fog-of-war configuration switches. -/
structure World where
  units : Nat → Option Unit
  factionTemplateStore : Nat → Option FactionTemplateEntry
  factionStore : Nat → Option FactionEntry
  fogStealth : Nat
  fogHealth : Nat
  fogStats : Nat

/-- A spell-proxy object (`DynamicObject`): carries only its caster guid. -/
structure DynamicObject where
  casterGuid : Nat

/-- A placed object (`GameObject`): owner guid and own faction template id
(`GAMEOBJECT_FACTION`, `0` meaning none). -/
structure GameObject where
  ownerGuid : Nat
  faction : Nat

/-- Model of `Unit::GetFactionTemplateEntry`: the faction template of the unit looked up in
the global store. -/
def Unit.GetFactionTemplateEntry (w : World) (u : Unit) : Option FactionTemplateEntry :=
  w.factionTemplateStore u.factionTemplateId

/-- Model of `Unit::GetControllingPlayer`: resolve the controlling player of the unit via
the master guid (or the owner guid when charms are ignored); a unit with no
master is its own controlling player when it is itself a player. -/
def Unit.GetControllingPlayer (w : World) (u : Unit) (ignoreCharms : Bool) : Option Unit :=
  let masterGuid := if ignoreCharms then u.ownerGuid else u.masterGuid
  if masterGuid ≠ 0 then
    match w.units masterGuid with
    | some master => if master.typeId = TypeId.player then some master else none
    | none => none
  else if u.typeId = TypeId.player then some u
  else none

/-- Model of `Unit::GetMaster`: the unit pointed to by the master guid, if any. -/
def Unit.GetMaster (w : World) (u : Unit) : Option Unit :=
  if u.masterGuid ≠ 0 then w.units u.masterGuid else none

/-- Model of `GetFactionReaction(FactionTemplateEntry const*, FactionTemplateEntry
const*)`: template-to-template reaction.  Enemy checks (group mask, explicit
enemy list) return `hostile` first; then friend checks (both directions)
return `friendly`; otherwise `neutral`.  The explicit list checks are guarded
by a nonzero first list entry and a nonzero faction id of the other side,
exactly as in the source. -/
def GetFactionReaction (thisTemplate otherTemplate : FactionTemplateEntry) : ReputationRank :=
  if otherTemplate.factionGroupMask &&& thisTemplate.enemyGroupMask ≠ 0 then
    .hostile
  else if thisTemplate.enemyFaction.headD 0 ≠ 0 ∧ otherTemplate.faction ≠ 0 ∧
      otherTemplate.faction ∈ thisTemplate.enemyFaction then
    .hostile
  else if otherTemplate.factionGroupMask &&& thisTemplate.friendGroupMask ≠ 0 then
    .friendly
  else if thisTemplate.friendFaction.headD 0 ≠ 0 ∧ otherTemplate.faction ≠ 0 ∧
      otherTemplate.faction ∈ thisTemplate.friendFaction then
    .friendly
  else if thisTemplate.factionGroupMask &&& otherTemplate.friendGroupMask ≠ 0 then
    .friendly
  else if otherTemplate.friendFaction.headD 0 ≠ 0 ∧ thisTemplate.faction ≠ 0 ∧
      thisTemplate.faction ∈ otherTemplate.friendFaction then
    .friendly
  else
    .neutral

/-- Model of `GetFactionReaction(FactionTemplateEntry const*, Unit const*)`:
template-to-unit reaction.  For a player-controlled unit with a controlling
player the source applies, in this order: the contested-PvP plus
contested-guard-faction `hostile` override, the forced per-faction reputation
rank, then the reputation-derived rank when the faction of the template tracks
reputation; if none of these fires, it falls back to the template-to-template
reaction; a missing template on either side yields `neutral`. -/
def GetFactionReactionU (w : World) (thisTemplate : Option FactionTemplateEntry)
    (unit : Unit) : ReputationRank :=
  match thisTemplate with
  | none => .neutral
  | some t =>
    match Unit.GetFactionTemplateEntry w unit with
    | none => .neutral
    | some unitFactionTemplate =>
      let playerSide : Option ReputationRank :=
        if unit.playerControlled then
          match Unit.GetControllingPlayer w unit false with
          | some unitPlayer =>
            if unitPlayer.contestedPvp ∧ t.contestedGuardFaction then
              some .hostile
            else
              match unitPlayer.forcedRank t.faction with
              | some rank => some rank
              | none =>
                match w.factionStore t.faction with
                | some thisFactionEntry =>
                  if thisFactionEntry.hasReputation then
                    some (unitPlayer.repRank thisFactionEntry.faction)
                  else none
                | none => none
          | none => none
        else none
      match playerSide with
      | some r => r
      | none => GetFactionReaction t unitFactionTemplate

/-- Model of `Unit::IsInGroup`: same unit is always grouped with itself; otherwise
both sides must be player-controlled and their controlling players must be
the same player or members of the same group (and, if `party` is requested,
of the same sub-group). -/
def Unit.IsInGroupBase (w : World) (a other : Unit) (party ignoreCharms : Bool) : Bool :=
  if a.guid = other.guid then
    true
  else if a.playerControlled ∧ other.playerControlled then
    match Unit.GetControllingPlayer w a ignoreCharms,
        Unit.GetControllingPlayer w other ignoreCharms with
    | some thisPlayer, some otherPlayer =>
      decide (thisPlayer.guid = otherPlayer.guid ∨
        (thisPlayer.groupId ≠ 0 ∧ thisPlayer.groupId = otherPlayer.groupId ∧
          (party = false ∨ thisPlayer.subGroup = otherPlayer.subGroup)))
    | _, _ => false
  else false

/-- Model of `Player::IsInGroup`: when charms are ignored and the other side is a
player, compare the groups of the two players directly (ignoring the
player-controlled flags); otherwise defer to `Unit::IsInGroup`. -/
def Player.IsInGroup (w : World) (a other : Unit) (party ignoreCharms : Bool) : Bool :=
  if a.guid ≠ other.guid ∧ ignoreCharms ∧ other.typeId = TypeId.player then
    decide (a.groupId ≠ 0 ∧ a.groupId = other.groupId ∧
      (party = false ∨ a.subGroup = other.subGroup))
  else Unit.IsInGroupBase w a other party ignoreCharms

/-- Player-specific early returns of `Unit::GetReactionTo` (the body of its
`if (HasFlag(UNIT_FIELD_FLAGS, UNIT_FLAG_PLAYER_CONTROLLED))` block):
`some r` models an early `return r`, `none` models falling through to the
faction fallback. -/
def Unit.GetReactionToPlayerSide (w : World) (a unit : Unit) : Option ReputationRank :=
  if a.playerControlled then
    let thisPlayer := Unit.GetControllingPlayer w a false
    let bothSides : Option ReputationRank :=
      if unit.playerControlled then
        match thisPlayer, Unit.GetControllingPlayer w unit false with
        | some tp, some up =>
          if tp.guid = up.guid then
            some .friendly
          else if tp.duelTeam ≠ 0 ∧ up.duelTeam ≠ 0 ∧ tp.duelArbiter = up.duelArbiter then
            some (if tp.duelTeam ≠ up.duelTeam then .hostile else .friendly)
          else if Player.IsInGroup w tp up false false then
            some .friendly
          else if tp.pvpFreeForAll ∧ up.pvpFreeForAll then
            some .hostile
          else none
        | _, _ => some .neutral
      else none
    match bothSides with
    | some r => some r
    | none =>
      match thisPlayer with
      | some tp =>
        match Unit.GetFactionTemplateEntry w unit with
        | some unitFactionTemplate =>
          match tp.forcedRank unitFactionTemplate.faction with
          | some rank => some rank
          | none =>
            match w.factionStore unitFactionTemplate.faction with
            | some unitFactionEntry =>
              if unitFactionEntry.hasReputation then
                if tp.contestedPvp ∧ unitFactionTemplate.contestedGuardFaction then
                  some .hostile
                else
                  some (if tp.atWar unitFactionEntry.faction then .hostile else .friendly)
              else none
            | none => none
        | none => none
      | none => none
  else none

/-- Whether the own faction of the unit (via its faction template) tracks player
reputation: the lookup chain guarding the persuasion adjustment. -/
def unitFactionTracksReputation (w : World) (u : Unit) : Bool :=
  match Unit.GetFactionTemplateEntry w u with
  | some t =>
    match w.factionStore t.faction with
    | some fe => fe.hasReputation
    | none => false
  | none => false

/-- Model of `Unit::GetReactionTo(Unit const*)`: self is `friendly`; then the
player-specific early returns; then the faction fallback followed by the
persuasion adjustment (a one-step bump when the raw reaction lies strictly
between `hostile` and `honored`, the opposite unit carries the persuaded
flag or is the persuasion target of the caller, and the opposite faction tracks
reputation). -/
def Unit.GetReactionTo (w : World) (a unit : Unit) : ReputationRank :=
  if a.guid = unit.guid then
    .friendly
  else
    match Unit.GetReactionToPlayerSide w a unit with
    | some r => r
    | none =>
      let reaction := GetFactionReactionU w (Unit.GetFactionTemplateEntry w a) unit
      if ReputationRank.hostile.toNat < reaction.toNat ∧
          reaction.toNat < ReputationRank.honored.toNat ∧
          (unit.persuadedFlag ∨ a.persuadedGuid = unit.guid) then
        if unitFactionTracksReputation w unit then reaction.succ else reaction
      else reaction

/-- Model of `Unit::IsEnemy`: the reaction is strictly below `unfriendly`. -/
def Unit.IsEnemy (w : World) (a unit : Unit) : Bool :=
  decide ((Unit.GetReactionTo w a unit).toNat < ReputationRank.unfriendly.toNat)

/-- Model of `Unit::IsFriend`: the reaction is strictly above `neutral`. -/
def Unit.IsFriend (w : World) (a unit : Unit) : Bool :=
  decide ((Unit.GetReactionTo w a unit).toNat > ReputationRank.neutral.toNat)

/-- Model of `Creature::IsInGroup`: player-controlled pairs defer to
`Unit::IsInGroup`; creature-to-creature grouping falls back to friendship. -/
def Creature.IsInGroup (w : World) (a other : Unit) (party ignoreCharms : Bool) : Bool :=
  if a.playerControlled ∨ other.playerControlled then
    Unit.IsInGroupBase w a other party ignoreCharms
  else Unit.IsFriend w a other

/-- Virtual dispatch of `IsInGroup` on the dynamic entity kind of the caller. -/
def Unit.IsInGroupD (w : World) (a other : Unit) (party ignoreCharms : Bool) : Bool :=
  match a.typeId with
  | .player => Player.IsInGroup w a other party ignoreCharms
  | .creature => Creature.IsInGroup w a other party ignoreCharms

/-- Model of `Unit::IsInTeam`: self is always in team with itself; otherwise both
sides must be player-controlled and their controlling players the same
player or on the same faction team. -/
def Unit.IsInTeam (w : World) (a other : Unit) (ignoreCharms : Bool) : Bool :=
  if a.guid = other.guid then
    true
  else if a.playerControlled ∧ other.playerControlled then
    match Unit.GetControllingPlayer w a ignoreCharms,
        Unit.GetControllingPlayer w other ignoreCharms with
    | some thisPlayer, some otherPlayer =>
      decide (thisPlayer.guid = otherPlayer.guid ∨ thisPlayer.team = otherPlayer.team)
    | _, _ => false
  else false

/-- Model of `Unit::CanAttack`: ghost gate, target flag gate, the two immunity
cross-checks, then the player-controlled branches (friendliness, duel, PvP
flags) or, for two non-player-controlled sides, the OR of both directions of
`IsEnemy`. -/
def Unit.CanAttack (w : World) (a unit : Unit) : Bool :=
  if a.typeId = TypeId.creature ∧ unit.typeId = TypeId.player ∧ unit.ghost ∧
      ¬a.creatureVisibleToGhosts then
    false
  else if unit.spawning ∨ unit.notAttackable1 ∨ unit.untargetable ∨ unit.taxiFlight ∨
      unit.uninteractible then
    false
  else if a.playerControlled ∧ unit.immuneToPlayer then
    false
  else if ¬a.playerControlled ∧ unit.immuneToNpc then
    false
  else if unit.playerControlled ∧ a.immuneToPlayer then
    false
  else if ¬unit.playerControlled ∧ a.immuneToNpc then
    false
  else if a.playerControlled ∨ unit.playerControlled then
    if a.playerControlled ∧ unit.playerControlled then
      if Unit.IsFriend w a unit then
        false
      else
        match Unit.GetControllingPlayer w a false with
        | none => true
        | some thisPlayer =>
          match Unit.GetControllingPlayer w unit false with
          | none => true
          | some unitPlayer =>
            if thisPlayer.duelTeam ≠ 0 ∧ unitPlayer.duelTeam ≠ 0 ∧
                thisPlayer.duelArbiter = unitPlayer.duelArbiter then
              true
            else if unitPlayer.pvp then
              true
            else if thisPlayer.pvpFreeForAll ∧ unitPlayer.pvpFreeForAll then
              true
            else false
    else !Unit.IsFriend w a unit
  else Unit.IsEnemy w a unit || Unit.IsEnemy w unit a

/-- Model of `Unit::CanCooperate`: never with self, never while either side is
charmed; otherwise both faction templates must exist, share the same faction
group mask, and the two must not be able to attack each other. -/
def Unit.CanCooperate (w : World) (a unit : Unit) : Bool :=
  if a.guid = unit.guid then
    false
  else if a.charmerGuid ≠ 0 ∨ unit.charmerGuid ≠ 0 then
    false
  else
    match Unit.GetFactionTemplateEntry w a, Unit.GetFactionTemplateEntry w unit with
    | some thisFactionTemplate, some unitFactionTemplate =>
      if thisFactionTemplate.factionGroupMask = unitFactionTemplate.factionGroupMask then
        !Unit.CanAttack w a unit
      else false
    | _, _ => false

/-- Backbone of the client lua `UnitIsPVP()` as inlined in `Unit::CanAssist`:
a unit with a master reports the PvP flag of the master unless it is
immune-to-player; a unit without a master reports its own PvP flag. -/
def isPvPUI (w : World) (self : Unit) : Bool :=
  match Unit.GetMaster w self with
  | some master => if self.immuneToPlayer then false else master.pvp
  | none => self.pvp

/-- Model of `Unit::CanAssist(Unit const*)`: target must be interactable and the
reaction at least `friendly`; a player-controlled target additionally
requires matching duel arbiter and duel team and compatible free-for-all
state of the controlling players; a non-player caller may always assist a
non-player target; a player caller may assist a non-player target only when
that target reports PvP from the UI point of view. -/
def Unit.CanAssist (w : World) (a unit : Unit) : Bool :=
  if unit.uninteractible then
    false
  else if (Unit.GetReactionTo w a unit).toNat < ReputationRank.friendly.toNat then
    false
  else if unit.playerControlled then
    match Unit.GetControllingPlayer w a false, Unit.GetControllingPlayer w unit false with
    | some thisPlayer, some unitPlayer =>
      if thisPlayer.duelArbiter ≠ unitPlayer.duelArbiter ∨
          thisPlayer.duelTeam ≠ unitPlayer.duelTeam then
        false
      else if unitPlayer.pvpFreeForAll ∧ ¬thisPlayer.pvpFreeForAll then
        false
      else true
    | _, _ => true
  else if ¬a.playerControlled then
    true
  else if isPvPUI w unit then
    true
  else false

/-- Model of `Unit::CanAssistSpell`: delegates to `CanAssist` (the spell metadata is
not consulted). -/
def Unit.CanAssistSpell (w : World) (a target : Unit) (_spellInfo : Option SpellEntry) : Bool :=
  Unit.CanAssist w a target

/-- Model of `Unit::CanAttackServerside`: the spell-flow variant of `CanAttack` whose
two immunity cross-checks can be disabled by the source- and target-side
ignore flags; the tail logic is identical to `CanAttack`. -/
def Unit.CanAttackServerside (w : World) (a unit : Unit)
    (ignoreFlagsSource ignoreFlagsTarget : Bool) : Bool :=
  if a.typeId = TypeId.creature ∧ unit.typeId = TypeId.player ∧ unit.ghost ∧
      ¬a.creatureVisibleToGhosts then
    false
  else if unit.spawning ∨ unit.notAttackable1 ∨ unit.untargetable ∨ unit.taxiFlight ∨
      unit.uninteractible then
    false
  else if ¬ignoreFlagsTarget ∧
      ((a.playerControlled ∧ unit.immuneToPlayer) ∨
        (¬a.playerControlled ∧ unit.immuneToNpc)) then
    false
  else if ¬ignoreFlagsSource ∧
      ((unit.playerControlled ∧ a.immuneToPlayer) ∨
        (¬unit.playerControlled ∧ a.immuneToNpc)) then
    false
  else if a.playerControlled ∨ unit.playerControlled then
    if a.playerControlled ∧ unit.playerControlled then
      if Unit.IsFriend w a unit then
        false
      else
        match Unit.GetControllingPlayer w a false with
        | none => true
        | some thisPlayer =>
          match Unit.GetControllingPlayer w unit false with
          | none => true
          | some unitPlayer =>
            if thisPlayer.duelTeam ≠ 0 ∧ unitPlayer.duelTeam ≠ 0 ∧
                thisPlayer.duelArbiter = unitPlayer.duelArbiter then
              true
            else if unitPlayer.pvp then
              true
            else if thisPlayer.pvpFreeForAll ∧ unitPlayer.pvpFreeForAll then
              true
            else false
    else !Unit.IsFriend w a unit
  else Unit.IsEnemy w a unit || Unit.IsEnemy w unit a

/-- Model of `Unit::CanAttackInCombat`: `CanAttackServerside` with an added carve-out
for a nominally friendly player-controlled target whose controlling player
is at war with the reputation-tracked faction of the caller. -/
def Unit.CanAttackInCombat (w : World) (a target : Unit)
    (ignoreFlagsSource ignoreFlagsTarget : Bool) : Bool :=
  if Unit.CanAttackServerside w a target ignoreFlagsSource ignoreFlagsTarget then
    true
  else if target.playerControlled then
    if Unit.IsFriend w a target then
      match Unit.GetControllingPlayer w target false with
      | some unitPlayer =>
        match Unit.GetFactionTemplateEntry w a with
        | some thisFactionTemplate =>
          match w.factionStore thisFactionTemplate.faction with
          | some thisFactionEntry =>
            thisFactionEntry.hasReputation && unitPlayer.atWar thisFactionEntry.faction
          | none => false
        | none => false
      | none => false
    else false
  else false

/-- Model of `Unit::CanAttackSpell`: the dead-target gate and the ignore-restriction
flags from the spell metadata, then `CanAttackInCombat`, then the AOE
incidental-PvP filter for player-controlled sides and the at-war filter for
a non-player caster against a non-enemy player-controlled target. -/
def Unit.CanAttackSpell (w : World) (a target : Unit) (spellInfo : Option SpellEntry)
    (isAOE : Bool) : Bool :=
  let ignoreFlags :=
    match spellInfo with
    | some s => s.ignoreCasterAndTargetRestrictions
    | none => false
  if (match spellInfo with
      | some s => !target.alive && !s.allowDeadTarget
      | none => false) then
    false
  else if Unit.CanAttackInCombat w a target ignoreFlags ignoreFlags then
    if target.playerControlled then
      if a.playerControlled then
        if isAOE then
          match Unit.GetControllingPlayer w a false with
          | some thisPlayer =>
            match Unit.GetControllingPlayer w target false with
            | some unitPlayer =>
              if ¬thisPlayer.inDuelWith unitPlayer.guid ∧
                  thisPlayer.pvp ≠ unitPlayer.pvp then
                thisPlayer.pvpFreeForAll && unitPlayer.pvpFreeForAll
              else true
            | none => true
          | none => true
        else true
      else
        if ¬Unit.IsEnemy w a target then
          match Unit.GetControllingPlayer w target false with
          | some unitPlayer =>
            match Unit.GetFactionTemplateEntry w a with
            | some thisFactionTemplate =>
              match w.factionStore thisFactionTemplate.faction with
              | some thisFactionEntry =>
                if thisFactionEntry.hasReputation then
                  unitPlayer.atWar thisFactionEntry.faction
                else true
              | none => true
            | none => true
          | none => true
        else true
    else true
  else false

/-- Model of `Unit::IsFogOfWarVisibleStealth`: game masters always pass; otherwise
configured mode `1` checks cooperation and every other value takes the
default same-group branch. -/
def Unit.IsFogOfWarVisibleStealth (w : World) (a other : Unit) : Bool :=
  if other.typeId = TypeId.player ∧ other.gameMaster then
    true
  else
    match w.fogStealth with
    | 1 => Unit.CanCooperate w a other
    | _ => Unit.IsInGroupD w a other false false

/-- Model of `Unit::IsFogOfWarVisibleHealth`: game masters always pass; mode `1`
checks same team, mode `2` always passes, every other value takes the
default charm-ignoring same-group branch. -/
def Unit.IsFogOfWarVisibleHealth (w : World) (a other : Unit) : Bool :=
  if other.typeId = TypeId.player ∧ other.gameMaster then
    true
  else
    match w.fogHealth with
    | 1 => Unit.IsInTeam w a other false
    | 2 => true
    | _ => Unit.IsInGroupD w a other false true

/-- Model of `Unit::IsFogOfWarVisibleStats`: game masters always pass; mode `1`
checks same team, mode `2` always passes, every other value takes the
default self-or-own-summon branch. -/
def Unit.IsFogOfWarVisibleStats (w : World) (a other : Unit) : Bool :=
  if other.typeId = TypeId.player ∧ other.gameMaster then
    true
  else
    match w.fogStats with
    | 1 => Unit.IsInTeam w a other false
    | 2 => true
    | _ => decide (a.guid = other.guid ∨ a.summonerGuid = other.guid)

/-- Model of `DynamicObject::GetCaster`: resolve the caster guid in the accessor. -/
def DynamicObject.GetCaster (w : World) (d : DynamicObject) : Option Unit :=
  w.units d.casterGuid

/-- Model of `DynamicObject::GetReactionTo`: delegate to the caster; `neutral`
without one. -/
def DynamicObject.GetReactionTo (w : World) (d : DynamicObject) (unit : Unit) : ReputationRank :=
  match DynamicObject.GetCaster w d with
  | some caster => Unit.GetReactionTo w caster unit
  | none => .neutral

/-- Model of `DynamicObject::IsEnemy`: delegate to the caster; `false` without one. -/
def DynamicObject.IsEnemy (w : World) (d : DynamicObject) (unit : Unit) : Bool :=
  match DynamicObject.GetCaster w d with
  | some caster => Unit.IsEnemy w caster unit
  | none => false

/-- Model of `DynamicObject::IsFriend`: delegate to the caster; `false` without one. -/
def DynamicObject.IsFriend (w : World) (d : DynamicObject) (unit : Unit) : Bool :=
  match DynamicObject.GetCaster w d with
  | some caster => Unit.IsFriend w caster unit
  | none => false

/-- Model of `DynamicObject::CanAttackSpell`: delegate to the same query on the caster; `false` without one. -/
def DynamicObject.CanAttackSpell (w : World) (d : DynamicObject) (target : Unit)
    (spellInfo : Option SpellEntry) (isAOE : Bool) : Bool :=
  match DynamicObject.GetCaster w d with
  | some owner => Unit.CanAttackSpell w owner target spellInfo isAOE
  | none => false

/-- Model of `DynamicObject::CanAssistSpell` as written in the source: despite its
documentation, the body invokes `CanAttackSpell` on the owner (with the
default non-AOE flag), not `CanAssistSpell` on the owner; `false` without an
owner. -/
def DynamicObject.CanAssistSpell (w : World) (d : DynamicObject) (target : Unit)
    (spellInfo : Option SpellEntry) : Bool :=
  match DynamicObject.GetCaster w d with
  | some owner => Unit.CanAttackSpell w owner target spellInfo false
  | none => false

/-- Model of `GameObject::GetOwner`: resolve the owner guid in the accessor. -/
def GameObject.GetOwner (w : World) (g : GameObject) : Option Unit :=
  w.units g.ownerGuid

/-- Model of `GameObject::GetReactionTo`: delegate to the owner when present, else
resolve the own faction id of the object against the unit, else `neutral`. -/
def GameObject.GetReactionTo (w : World) (g : GameObject) (unit : Unit) : ReputationRank :=
  match GameObject.GetOwner w g with
  | some owner => Unit.GetReactionTo w owner unit
  | none =>
    if g.faction ≠ 0 then
      match w.factionTemplateStore g.faction with
      | some factionTemplate => GetFactionReactionU w (some factionTemplate) unit
      | none => .neutral
    else .neutral

/-- Model of `GameObject::IsEnemy`: delegate to the owner when present, else resolve
the own faction id of the object, else `false`. -/
def GameObject.IsEnemy (w : World) (g : GameObject) (unit : Unit) : Bool :=
  match GameObject.GetOwner w g with
  | some owner => Unit.IsEnemy w owner unit
  | none =>
    if g.faction ≠ 0 then
      match w.factionTemplateStore g.faction with
      | some factionTemplate =>
        decide ((GetFactionReactionU w (some factionTemplate) unit).toNat <
          ReputationRank.unfriendly.toNat)
      | none => false
    else false

/-- Model of `GameObject::IsFriend`: delegate to the owner when present, else resolve
the own faction id of the object, else `false`. -/
def GameObject.IsFriend (w : World) (g : GameObject) (unit : Unit) : Bool :=
  match GameObject.GetOwner w g with
  | some owner => Unit.IsFriend w owner unit
  | none =>
    if g.faction ≠ 0 then
      match w.factionTemplateStore g.faction with
      | some factionTemplate =>
        decide ((GetFactionReactionU w (some factionTemplate) unit).toNat >
          ReputationRank.neutral.toNat)
      | none => false
    else false

/-- Model of `GameObject::CanAttackSpell`: delegate to the owner when present; else a
player-controlled target is attackable iff not a friend, a non-player target
iff an enemy. -/
def GameObject.CanAttackSpell (w : World) (g : GameObject) (target : Unit)
    (spellInfo : Option SpellEntry) (isAOE : Bool) : Bool :=
  match GameObject.GetOwner w g with
  | some owner => Unit.CanAttackSpell w owner target spellInfo isAOE
  | none =>
    if target.playerControlled then !GameObject.IsFriend w g target
    else GameObject.IsEnemy w g target

/-- Model of `GameObject::CanAssistSpell`: delegate to the owner when present; else a
player-controlled target is assistable iff not an enemy, a non-player target
iff a friend. -/
def GameObject.CanAssistSpell (w : World) (g : GameObject) (target : Unit)
    (spellInfo : Option SpellEntry) : Bool :=
  match GameObject.GetOwner w g with
  | some owner => Unit.CanAssistSpell w owner target spellInfo
  | none =>
    if target.playerControlled then !GameObject.IsEnemy w g target
    else GameObject.IsFriend w g target

/-! Concrete fixtures used to evaluate the model on closed inputs. -/

/-- Base fixture: a plain creature with cleared flags and empty links. -/
def unit0 : Unit where
  guid := 1
  typeId := .creature
  playerControlled := false
  spawning := false
  notAttackable1 := false
  untargetable := false
  taxiFlight := false
  uninteractible := false
  immuneToPlayer := false
  immuneToNpc := false
  persuadedFlag := false
  pvp := false
  pvpFreeForAll := false
  alive := true
  ownerGuid := 0
  masterGuid := 0
  charmerGuid := 0
  persuadedGuid := 0
  summonerGuid := 0
  factionTemplateId := 0
  creatureVisibleToGhosts := false
  ghost := false
  contestedPvp := false
  duelTeam := 0
  duelArbiter := 0
  inDuelWith := fun _ => false
  forcedRank := fun _ => none
  repRank := fun _ => .neutral
  atWar := fun _ => false
  groupId := 0
  subGroup := 0
  team := 0
  gameMaster := false

/-- Second base creature, distinct guid. -/
def unit0b : Unit := { unit0 with guid := 2 }

/-- Base fixture: an empty world with zero configuration values. -/
def world0 : World where
  units := fun _ => none
  factionTemplateStore := fun _ => none
  factionStore := fun _ => none
  fogStealth := 0
  fogHealth := 0
  fogStats := 0

/-- Every reputation rank is at most `mostFriendlyRank`: `exalted` is the
maximum of the ordering. -/
theorem mostFriendlyRank_is_max (r : ReputationRank) :
    r.toNat ≤ mostFriendlyRank.toNat := by
  cases r <;> decide

/-- C1 (counterexample): the reaction of a unit to itself is not the most
friendly rank of the `ReputationRank` ordering: the code returns `friendly`,
two steps below `exalted`. -/
theorem reaction_to_self_not_most_friendly_cex :
    Unit.GetReactionTo world0 unit0 unit0 ≠ mostFriendlyRank := by
  decide

/-- C1 (amended): the reaction of any unit to itself is `friendly`. -/
theorem reaction_to_self_is_friendly (w : World) (u : Unit) :
    Unit.GetReactionTo w u u = ReputationRank.friendly := by
  simp [Unit.GetReactionTo]

/-- Disjunction of the two enemy checks of the template-to-template
reaction: group-mask intersection or guarded explicit enemy list hit. -/
def enemyCondition (t o : FactionTemplateEntry) : Prop :=
  o.factionGroupMask &&& t.enemyGroupMask ≠ 0 ∨
    (t.enemyFaction.headD 0 ≠ 0 ∧ o.faction ≠ 0 ∧ o.faction ∈ t.enemyFaction)

instance (t o : FactionTemplateEntry) : Decidable (enemyCondition t o) := by
  unfold enemyCondition
  infer_instance

/-- Disjunction of the four friend checks of the template-to-template
reaction: both group-mask directions and both guarded explicit friend
lists. -/
def friendCondition (t o : FactionTemplateEntry) : Prop :=
  o.factionGroupMask &&& t.friendGroupMask ≠ 0 ∨
    (t.friendFaction.headD 0 ≠ 0 ∧ o.faction ≠ 0 ∧ o.faction ∈ t.friendFaction) ∨
    t.factionGroupMask &&& o.friendGroupMask ≠ 0 ∨
    (o.friendFaction.headD 0 ≠ 0 ∧ t.faction ≠ 0 ∧ t.faction ∈ o.friendFaction)

instance (t o : FactionTemplateEntry) : Decidable (friendCondition t o) := by
  unfold friendCondition
  infer_instance

set_option maxHeartbeats 1600000 in
/-- C3: the template-to-template reaction is `hostile` exactly when some
enemy condition holds (even when friend conditions hold simultaneously),
`friendly` when no enemy condition but some friend condition holds, and
`neutral` when neither holds. -/
theorem faction_reaction_enmity_precedence (t o : FactionTemplateEntry) :
    GetFactionReaction t o =
      if enemyCondition t o then ReputationRank.hostile
      else if friendCondition t o then ReputationRank.friendly
      else ReputationRank.neutral := by
  simp only [GetFactionReaction, enemyCondition, friendCondition]
  split_ifs <;> tauto

/-- C4: `IsEnemy` holds exactly when the reaction is strictly below
`unfriendly`, `IsFriend` exactly when it is strictly above `neutral`, and on
a concrete pair with `neutral` reaction both predicates are false at once. -/
theorem enemy_friend_thresholds (w : World) (a b : Unit) :
    (Unit.IsEnemy w a b = true ↔
      (Unit.GetReactionTo w a b).toNat < ReputationRank.unfriendly.toNat) ∧
    (Unit.IsFriend w a b = true ↔
      ReputationRank.neutral.toNat < (Unit.GetReactionTo w a b).toNat) ∧
    (Unit.IsEnemy world0 unit0 unit0b = false ∧ Unit.IsFriend world0 unit0 unit0b = false) :=
  ⟨by simp [Unit.IsEnemy], by simp [Unit.IsFriend], by decide⟩

/-- C10: no unit can ever attack itself, whatever its flags and state. -/
theorem canattack_self_false (w : World) (u : Unit) :
    Unit.CanAttack w u u = false := by
  have hr : Unit.GetReactionTo w u u = ReputationRank.friendly := by
    simp [Unit.GetReactionTo]
  simp [Unit.CanAttack, Unit.IsFriend, Unit.IsEnemy, hr, ReputationRank.toNat]

/-- Contested guard faction template used by the forced-rank fixtures. -/
def tmplContested : FactionTemplateEntry where
  faction := 40
  factionGroupMask := 0
  enemyGroupMask := 0
  friendGroupMask := 0
  enemyFaction := []
  friendFaction := []
  contestedGuardFaction := true

/-- Harmless faction template owned by the forced-rank fixture player. -/
def tmplPlain : FactionTemplateEntry where
  faction := 90
  factionGroupMask := 0
  enemyGroupMask := 0
  friendGroupMask := 0
  enemyFaction := []
  friendFaction := []
  contestedGuardFaction := false

/-- Contested-PvP player with a forced `friendly` rank toward faction 40. -/
def playerForcedCex : Unit :=
  { unit0 with
    guid := 50
    typeId := .player
    playerControlled := true
    contestedPvp := true
    factionTemplateId := 9
    forcedRank := fun f => if f = 40 then some .friendly else none }

/-- Same player without contested PvP and with a forced `revered` rank. -/
def playerForcedWit : Unit :=
  { playerForcedCex with
    contestedPvp := false
    forcedRank := fun f => if f = 40 then some .revered else none }

/-- World carrying the template of the forced-rank fixture player. -/
def worldForced : World :=
  { world0 with
    factionTemplateStore := fun i => if i = 9 then some tmplPlain else none }

/-- C2 (counterexample): a forced per-faction rank is not applied first in
the template-to-unit reaction: with contested PvP set and a contested guard
faction template, the result is `hostile` although a forced `friendly` rank
exists for that player and template. -/
theorem contested_overrides_forced_rank_cex :
    playerForcedCex.forcedRank tmplContested.faction = some ReputationRank.friendly ∧
    Unit.GetControllingPlayer worldForced playerForcedCex false = some playerForcedCex ∧
    GetFactionReactionU worldForced (some tmplContested) playerForcedCex =
      ReputationRank.hostile :=
  ⟨by decide, rfl, by decide⟩

/-- C2 (amended): in the template-to-unit reaction the contested-PvP plus
contested-guard-faction override is applied first; the forced per-faction
rank is applied second, before the reputation-derived rank and the
faction-template fallback, so whenever a forced rank exists and the
contested override does not fire, the forced rank is the result. -/
theorem forced_rank_before_reputation (w : World) (t ut : FactionTemplateEntry)
    (unit p : Unit) (r : ReputationRank)
    (hut : Unit.GetFactionTemplateEntry w unit = some ut)
    (hpc : unit.playerControlled = true)
    (hcp : Unit.GetControllingPlayer w unit false = some p)
    (hnc : ¬(p.contestedPvp = true ∧ t.contestedGuardFaction = true))
    (hfr : p.forcedRank t.faction = some r) :
    GetFactionReactionU w (some t) unit = r := by
  simp [GetFactionReactionU, hut, hpc, hcp, hnc, hfr]

/-- C2 (witness): the amended theorem applied to a concrete
non-contested player with a forced `revered` rank. -/
theorem forced_rank_before_reputation_witness :
    GetFactionReactionU worldForced (some tmplContested) playerForcedWit =
      ReputationRank.revered :=
  forced_rank_before_reputation worldForced tmplContested tmplPlain playerForcedWit
    playerForcedWit ReputationRank.revered rfl rfl rfl (by decide) (by decide)

/-- Reputation-tracked faction template (faction 70) of the at-war
asymmetry fixtures. -/
def tmplAtWar : FactionTemplateEntry where
  faction := 70
  factionGroupMask := 0
  enemyGroupMask := 0
  friendGroupMask := 0
  enemyFaction := []
  friendFaction := []
  contestedGuardFaction := false

/-- Faction template (faction 110) owned by the at-war fixture player. -/
def tmplPlayerSide : FactionTemplateEntry where
  faction := 110
  factionGroupMask := 0
  enemyGroupMask := 0
  friendGroupMask := 0
  enemyFaction := []
  friendFaction := []
  contestedGuardFaction := false

/-- Player at war with faction 70 while holding `honored` standing there. -/
def playerAtWar : Unit :=
  { unit0 with
    guid := 10
    typeId := .player
    playerControlled := true
    factionTemplateId := 11
    atWar := fun f => decide (f = 70)
    repRank := fun f => if f = 70 then .honored else .neutral }

/-- Creature of the reputation-tracked faction 70. -/
def creatureAtWar : Unit := { unit0 with guid := 20, factionTemplateId := 7 }

/-- World carrying both at-war fixture templates and the faction entry. -/
def worldAtWar : World :=
  { world0 with
    factionTemplateStore := fun i =>
      if i = 7 then some tmplAtWar
      else if i = 11 then some tmplPlayerSide
      else none
    factionStore := fun i =>
      if i = 70 then some { faction := 70, hasReputation := true } else none }

/-- C6 (counterexample): for a mixed pair (exactly one side
player-controlled, no blocking flags) `CanAttack` is not symmetric: the
at-war player may attack the `honored`-standing creature, but not the other
way around. -/
theorem mixed_canattack_asymmetric_cex :
    playerAtWar.playerControlled = true ∧ creatureAtWar.playerControlled = false ∧
    Unit.CanAttack worldAtWar playerAtWar creatureAtWar = true ∧
    Unit.CanAttack worldAtWar creatureAtWar playerAtWar = false := by
  decide

/-- C6 (amended): with no ghost, target-flag or immunity gate firing,
`CanAttack` for a pair with neither side player-controlled equals the OR of
both directions of `IsEnemy`, and for a mixed pair it equals the single
check not-`IsFriend` of the caller toward the target (which is not
symmetric in general). -/
theorem canattack_shapes (w : World) (a b : Unit)
    (hg : a.typeId = TypeId.creature ∧ b.typeId = TypeId.player ∧ b.ghost = true →
      a.creatureVisibleToGhosts = true)
    (h1 : b.spawning = false) (h2 : b.notAttackable1 = false) (h3 : b.untargetable = false)
    (h4 : b.taxiFlight = false) (h5 : b.uninteractible = false)
    (h6 : b.immuneToPlayer = false) (h7 : b.immuneToNpc = false)
    (h8 : a.immuneToPlayer = false) (h9 : a.immuneToNpc = false) :
    (a.playerControlled = false ∧ b.playerControlled = false →
      Unit.CanAttack w a b = (Unit.IsEnemy w a b || Unit.IsEnemy w b a)) ∧
    (a.playerControlled ≠ b.playerControlled →
      Unit.CanAttack w a b = !Unit.IsFriend w a b) := by
  have hg3 : ¬a.typeId = TypeId.creature ∨ ¬b.typeId = TypeId.player ∨ b.ghost = false ∨
      a.creatureVisibleToGhosts = true := by
    by_cases x : a.typeId = TypeId.creature
    · by_cases y : b.typeId = TypeId.player
      · cases z : b.ghost
        · exact Or.inr (Or.inr (Or.inl rfl))
        · exact Or.inr (Or.inr (Or.inr (hg ⟨x, y, z⟩)))
      · exact Or.inr (Or.inl y)
    · exact Or.inl x
  constructor
  · rintro ⟨ha, hb⟩
    simp [Unit.CanAttack, h1, h2, h3, h4, h5, h6, h7, h8, h9, ha, hb]
    exact fun _ => hg3
  · intro hne
    cases ha : a.playerControlled <;> cases hb : b.playerControlled
    · exact absurd (ha.trans hb.symm) hne
    · simp [Unit.CanAttack, h1, h2, h3, h4, h5, h6, h7, h8, h9, ha, hb]
      exact fun _ => hg3
    · simp [Unit.CanAttack, h1, h2, h3, h4, h5, h6, h7, h8, h9, ha, hb]
      exact fun _ => hg3
    · exact absurd (ha.trans hb.symm) hne

/-- C6 (witness): the amended theorem applied to a concrete
non-player-controlled pair of plain creatures. -/
theorem canattack_shapes_witness :
    Unit.CanAttack world0 unit0 unit0b =
      (Unit.IsEnemy world0 unit0 unit0b || Unit.IsEnemy world0 unit0b unit0) :=
  (canattack_shapes world0 unit0 unit0b (by decide) rfl rfl rfl rfl rfl rfl rfl rfl rfl).1
    ⟨rfl, rfl⟩

/-- C7: two distinct self-controlled players enrolled in a duel (both duel
teams nonzero, same arbiter, no blocking flags): opposing duel teams give a
`hostile` reaction and permit the attack; equal duel teams give a `friendly`
reaction and block it. -/
theorem duel_reaction_and_canattack (w : World) (a b : Unit)
    (hta : a.typeId = TypeId.player) (htb : b.typeId = TypeId.player)
    (hpa : a.playerControlled = true) (hpb : b.playerControlled = true)
    (hma : a.masterGuid = 0) (hmb : b.masterGuid = 0)
    (hne : a.guid ≠ b.guid)
    (hda : a.duelTeam ≠ 0) (hdb : b.duelTeam ≠ 0)
    (harb : a.duelArbiter = b.duelArbiter)
    (h1 : b.spawning = false) (h2 : b.notAttackable1 = false) (h3 : b.untargetable = false)
    (h4 : b.taxiFlight = false) (h5 : b.uninteractible = false)
    (h6 : b.immuneToPlayer = false) (h7 : a.immuneToPlayer = false) :
    (a.duelTeam ≠ b.duelTeam →
      Unit.GetReactionTo w a b = ReputationRank.hostile ∧
      Unit.CanAttack w a b = true) ∧
    (a.duelTeam = b.duelTeam →
      Unit.GetReactionTo w a b = ReputationRank.friendly ∧
      Unit.CanAttack w a b = false) := by
  have hcpa : Unit.GetControllingPlayer w a false = some a := by
    simp [Unit.GetControllingPlayer, hma, hta]
  have hcpb : Unit.GetControllingPlayer w b false = some b := by
    simp [Unit.GetControllingPlayer, hmb, htb]
  have hps : Unit.GetReactionToPlayerSide w a b =
      some (if a.duelTeam ≠ b.duelTeam then ReputationRank.hostile
        else ReputationRank.friendly) := by
    simp [Unit.GetReactionToPlayerSide, hpa, hpb, hcpa, hcpb, hne, hda, hdb, harb]
  have hr : Unit.GetReactionTo w a b =
      (if a.duelTeam ≠ b.duelTeam then ReputationRank.hostile
        else ReputationRank.friendly) := by
    simp [Unit.GetReactionTo, hne, hps]
  constructor
  · intro hd
    have hr2 : Unit.GetReactionTo w a b = ReputationRank.hostile := by
      rw [hr, if_pos hd]
    refine ⟨hr2, ?_⟩
    simp [Unit.CanAttack, Unit.IsFriend, hr2, ReputationRank.toNat, hta, hpa, hpb,
      h1, h2, h3, h4, h5, h6, h7, hcpa, hcpb, hda, hdb, harb]
  · intro hd
    have hr2 : Unit.GetReactionTo w a b = ReputationRank.friendly := by
      rw [hr, if_neg (by simpa using hd)]
    refine ⟨hr2, ?_⟩
    simp [Unit.CanAttack, Unit.IsFriend, hr2, ReputationRank.toNat, hta, hpa, hpb,
      h1, h2, h3, h4, h5, h6, h7]

/-- Duelling fixture player on duel team 1 with arbiter 77. -/
def duelistA : Unit :=
  { unit0 with
    guid := 100
    typeId := .player
    playerControlled := true
    duelTeam := 1
    duelArbiter := 77 }

/-- Duelling fixture player on duel team 2 with arbiter 77. -/
def duelistB : Unit := { duelistA with guid := 101, duelTeam := 2 }

/-- C7 (witness): the duel theorem applied to the two concrete duelists on
opposing teams. -/
theorem duel_reaction_and_canattack_witness :
    Unit.GetReactionTo world0 duelistA duelistB = ReputationRank.hostile ∧
    Unit.CanAttack world0 duelistA duelistB = true :=
  (duel_reaction_and_canattack world0 duelistA duelistB rfl rfl rfl rfl rfl rfl
    (by decide) (by decide) (by decide) rfl rfl rfl rfl rfl rfl rfl rfl).1 (by decide)

/-- C8: for a non-player-controlled caller (the fallback path of
`GetReactionTo`), the returned rank is the raw faction-fallback reaction
bumped by exactly one step when the opposite unit is persuaded (flag or
explicit persuasion target), the opposite faction tracks reputation and the
raw reaction lies strictly between `hostile` and `honored`; otherwise the
raw reaction is returned unchanged. -/
theorem persuasion_adjustment (w : World) (a b : Unit)
    (hpc : a.playerControlled = false) (hne : a.guid ≠ b.guid) :
    Unit.GetReactionTo w a b =
      (if ReputationRank.hostile.toNat <
            (GetFactionReactionU w (Unit.GetFactionTemplateEntry w a) b).toNat ∧
          (GetFactionReactionU w (Unit.GetFactionTemplateEntry w a) b).toNat <
            ReputationRank.honored.toNat ∧
          (b.persuadedFlag = true ∨ a.persuadedGuid = b.guid) ∧
          unitFactionTracksReputation w b = true then
        (GetFactionReactionU w (Unit.GetFactionTemplateEntry w a) b).succ
      else GetFactionReactionU w (Unit.GetFactionTemplateEntry w a) b) := by
  have hps : Unit.GetReactionToPlayerSide w a b = none := by
    simp [Unit.GetReactionToPlayerSide, hpc]
  simp only [Unit.GetReactionTo, if_neg hne, hps]
  by_cases hcond : ReputationRank.hostile.toNat <
        (GetFactionReactionU w (Unit.GetFactionTemplateEntry w a) b).toNat ∧
      (GetFactionReactionU w (Unit.GetFactionTemplateEntry w a) b).toNat <
        ReputationRank.honored.toNat ∧
      (b.persuadedFlag = true ∨ a.persuadedGuid = b.guid) <;>
    by_cases htr : unitFactionTracksReputation w b = true <;>
    simp [hcond, htr]

/-- Plain faction template (faction 120) of the persuading creature. -/
def tmplPersuadeSrc : FactionTemplateEntry :=
  { tmplPlain with faction := 120 }

/-- Reputation-tracked faction template (faction 130) of the persuaded
creature. -/
def tmplPersuadeDst : FactionTemplateEntry :=
  { tmplPlain with faction := 130 }

/-- Creature that has persuaded its target (fallback reaction `neutral`). -/
def unitPersuader : Unit := { unit0 with guid := 60, factionTemplateId := 12 }

/-- Persuaded creature of the reputation-tracked faction 130. -/
def unitPersuaded : Unit :=
  { unit0 with guid := 61, factionTemplateId := 13, persuadedFlag := true }

/-- World carrying the persuasion fixture templates and faction entry. -/
def worldPersuade : World :=
  { world0 with
    factionTemplateStore := fun i =>
      if i = 12 then some tmplPersuadeSrc
      else if i = 13 then some tmplPersuadeDst
      else none
    factionStore := fun i =>
      if i = 130 then some { faction := 130, hasReputation := true } else none }

/-- C8 (witness): the persuasion theorem applied to the concrete fixtures;
the raw `neutral` fallback reaction is bumped one step to `friendly`. -/
theorem persuasion_adjustment_witness :
    Unit.GetReactionTo worldPersuade unitPersuader unitPersuaded =
      ReputationRank.friendly := by
  rw [persuasion_adjustment worldPersuade unitPersuader unitPersuaded rfl (by decide)]
  decide

/-- C9: a game-master player viewer passes all three fog-of-war gates for
every configured mode, and for every configuration value outside the
recognized non-default cases each gate takes its documented default branch
(same group for stealth, charm-ignoring same group for health, self or own
summon for stats). -/
theorem fog_of_war_gm_and_default (w : World) (a b : Unit) :
    (b.typeId = TypeId.player → b.gameMaster = true →
      Unit.IsFogOfWarVisibleStealth w a b = true ∧
      Unit.IsFogOfWarVisibleHealth w a b = true ∧
      Unit.IsFogOfWarVisibleStats w a b = true) ∧
    (¬(b.typeId = TypeId.player ∧ b.gameMaster = true) →
      (w.fogStealth ≠ 1 →
        Unit.IsFogOfWarVisibleStealth w a b = Unit.IsInGroupD w a b false false) ∧
      (w.fogHealth ≠ 1 → w.fogHealth ≠ 2 →
        Unit.IsFogOfWarVisibleHealth w a b = Unit.IsInGroupD w a b false true) ∧
      (w.fogStats ≠ 1 → w.fogStats ≠ 2 →
        Unit.IsFogOfWarVisibleStats w a b =
          decide (a.guid = b.guid ∨ a.summonerGuid = b.guid))) := by
  have hone : ∀ (n : Nat) (x y : Bool), n ≠ 1 →
      (match n with | 1 => x | _ => y) = y := by
    intro n x y hn
    match n with
    | 0 => rfl
    | 1 => exact absurd rfl hn
    | m + 2 => rfl
  have htwo : ∀ (n : Nat) (x y : Bool), n ≠ 1 → n ≠ 2 →
      (match n with | 1 => x | 2 => true | _ => y) = y := by
    intro n x y hn1 hn2
    match n with
    | 0 => rfl
    | 1 => exact absurd rfl hn1
    | 2 => exact absurd rfl hn2
    | m + 3 => rfl
  constructor
  · intro ht hgm
    refine ⟨?_, ?_, ?_⟩ <;>
      simp [Unit.IsFogOfWarVisibleStealth, Unit.IsFogOfWarVisibleHealth,
        Unit.IsFogOfWarVisibleStats, ht, hgm]
  · intro hngm
    refine ⟨fun hs => ?_, fun hh1 hh2 => ?_, fun hs1 hs2 => ?_⟩
    · rw [Unit.IsFogOfWarVisibleStealth, if_neg hngm]
      exact hone w.fogStealth _ _ hs
    · rw [Unit.IsFogOfWarVisibleHealth, if_neg hngm]
      exact htwo w.fogHealth _ _ hh1 hh2
    · rw [Unit.IsFogOfWarVisibleStats, if_neg hngm]
      exact htwo w.fogStats _ _ hs1 hs2

/-- Game-master player fixture. -/
def gmViewer : Unit := { unit0 with guid := 3, typeId := .player, gameMaster := true }

/-- World whose three fog-of-war modes hold the unrecognized value 7. -/
def worldFogUnknown : World := { world0 with fogStealth := 7, fogHealth := 7, fogStats := 7 }

/-- C9 (witness): the fog-of-war theorem applied to a concrete game master
under unrecognized mode 7, and its default branches applied to a concrete
non-game-master pair. -/
theorem fog_of_war_gm_and_default_witness :
    (Unit.IsFogOfWarVisibleStealth worldFogUnknown unit0 gmViewer = true ∧
      Unit.IsFogOfWarVisibleHealth worldFogUnknown unit0 gmViewer = true ∧
      Unit.IsFogOfWarVisibleStats worldFogUnknown unit0 gmViewer = true) ∧
    Unit.IsFogOfWarVisibleStealth worldFogUnknown unit0 unit0b =
      Unit.IsInGroupD worldFogUnknown unit0 unit0b false false :=
  ⟨(fog_of_war_gm_and_default worldFogUnknown unit0 gmViewer).1 rfl rfl,
    ((fog_of_war_gm_and_default worldFogUnknown unit0 unit0b).2 (by decide)).1 (by decide)⟩

/-- Faction template whose members are mutual friends via the group masks. -/
def tmplProxy : FactionTemplateEntry where
  faction := 0
  factionGroupMask := 2
  enemyGroupMask := 0
  friendGroupMask := 2
  enemyFaction := []
  friendFaction := []
  contestedGuardFaction := false

/-- Creature caster behind the spell-proxy fixture object. -/
def casterProxy : Unit := { unit0 with guid := 30, factionTemplateId := 8 }

/-- Friendly creature target of the spell-proxy fixture object. -/
def targetProxy : Unit := { unit0 with guid := 31, factionTemplateId := 8 }

/-- Spell-proxy fixture object cast by `casterProxy`. -/
def dynProxy : DynamicObject := { casterGuid := 30 }

/-- World carrying the proxy fixtures. -/
def worldProxy : World :=
  { world0 with
    units := fun g => if g = 30 then some casterProxy else none
    factionTemplateStore := fun i => if i = 8 then some tmplProxy else none }

/-- C5 (code bug): with a live caster and a friendly target, the
DynamicObject assist query diverges from the same-named query on the owner:
`Unit::CanAssistSpell` on the caster permits the assist, but
`DynamicObject::CanAssistSpell` returns false because its body calls the
the owner, via `CanAttackSpell`, contradicting its own documentation. -/
theorem dynobject_canassistspell_divergence :
    DynamicObject.GetCaster worldProxy dynProxy = some casterProxy ∧
    Unit.CanAssistSpell worldProxy casterProxy targetProxy none = true ∧
    DynamicObject.CanAssistSpell worldProxy dynProxy targetProxy none = false :=
  ⟨rfl, by decide, by decide⟩

end Relations
